import Mathlib

/-!
Shallow embedding of the fastds library core (src/ring-buffer.ts and
src/binary-search.ts) and verification of its specification claims.

Modelling conventions:
* A JS array of `T` slots that may hold `undefined` is `Array (Option α)`;
  a read past the end of the array yields `undefined`, modelled by `jsGet`
  returning `none`; a write past the end auto-extends the array with
  `undefined` slots (`jsSet`); assigning to `length` truncates or pads
  (`setLength`).
* JS 32-bit operations: `x & mask` is `jsAnd` (operands converted to 32-bit
  as in JS), `Math.clz32` is `clz32`, and `1 << k` (whose shift count is
  taken mod 32, and which yields the negative int32 `-2^31` for `k = 31`)
  is `shl1`.  Buffer sizes in the library are powers of two between 8 and
  2^30, so these models are exact on every reachable input.
* `(left + right) >>> 1` in the binary searches is modelled as
  `(left + right) / 2`; the operands are bounded by the buffer length
  (at most 2^30 here), where the two agree.
* The comparator `(a: T, b: T) => number` is called by the library as
  `comparator(buffer.peekAt(mid)!, value)`, so its first argument can be
  `undefined` at runtime and its result can be `NaN`.  It is modelled as
  `Option α → α → Option Int`, `none` standing for a `NaN` result; the
  library only tests `c < 0`, `c <= 0` and `c === 0`, which are all false
  for `NaN` (`cmpLt`, `cmpLe`, `cmpEq`).
-/

namespace FastDS

/-- JS `ToUint32`: reduce an integer modulo 2^32 into `[0, 2^32)`. -/
def toUint32 (x : Int) : Nat := (x % (4294967296 : Int)).toNat

/-- Bit length of a natural number, with enough structural fuel to be exact
for every number below 2^40 (all inputs here are below 2^32). -/
def bitLenGo : Nat → Nat → Nat
  | 0, _ => 0
  | _ + 1, 0 => 0
  | f + 1, n + 1 => bitLenGo f ((n + 1) / 2) + 1

def bitLen (n : Nat) : Nat := bitLenGo 40 n

/-- `Math.clz32`: count of leading zero bits of the 32-bit representation. -/
def clz32 (x : Int) : Nat := 32 - bitLen (toUint32 x)

/-- JS `1 << k`: the shift count is taken mod 32 and the result is a signed
32-bit integer, so `1 << 31` is `-2^31`. -/
def shl1 (k : Nat) : Int :=
  let s := k % 32
  if s = 31 then -2147483648 else (2 ^ s : Int)

/-- JS `x & m` for a non-negative mask `m` below 2^31 (every mask used by the
library): convert `x` to its 32-bit representation and take the bitwise and. -/
def jsAnd (x : Int) (m : Nat) : Nat := Nat.land (toUint32 x) (m % 4294967296)

/-- JS array read `a[i]`: `undefined` (`none`) past the end. -/
def jsGet (a : Array (Option α)) (i : Nat) : Option α := a.getD i none

/-- JS array write `a[i] = v`: auto-extends the array with `undefined` slots
when `i` is past the end. -/
def jsSet (a : Array (Option α)) (i : Nat) (v : Option α) : Array (Option α) :=
  if h : i < a.size then a.set ⟨i, h⟩ v
  else (a ++ Array.mkArray (i - a.size) none).push v

/-- JS `a.length = n`: truncate or pad with `undefined`. -/
def setLength (a : Array (Option α)) (n : Nat) : Array (Option α) :=
  if n ≤ a.size then a.extract 0 n else a ++ Array.mkArray (n - a.size) none

/-- The ring buffer state: backing array, `head`/`tail` offsets, bit `mask`
and logical `length`, exactly the private fields of `class RingBuffer`. -/
structure RingBuffer (α : Type) where
  buffer : Array (Option α)
  head : Nat
  tail : Nat
  mask : Nat
  length : Nat
deriving Repr

namespace RingBuffer

/-- `Math.max(1 << (32 - Math.clz32(capacity - 1)), DEFAULT_CAPACITY)`:
the backing size chosen by the constructor and by `resize`. -/
def roundSize (capacity : Int) : Nat :=
  (max (shl1 (32 - clz32 (capacity - 1))) 8).toNat

/-- `new RingBuffer(capacity)`. -/
def mkRing (α : Type) (capacity : Int) : RingBuffer α :=
  let size := roundSize capacity
  { buffer := Array.mkArray size none, head := 0, tail := 0, mask := size - 1, length := 0 }

/-- `isEmpty()`. -/
def isEmpty (rb : RingBuffer α) : Bool := rb.tail == rb.head

/-- `grow(capacity)`. -/
def grow (rb : RingBuffer α) (capacity : Int) : RingBuffer α :=
  let bufferLength := rb.buffer.size
  if (bufferLength : Int) ≥ capacity + 1 then rb
  else
    let size := (shl1 (32 - clz32 capacity)).toNat
    let buf1 := setLength rb.buffer size
    let oldTail := rb.tail
    if oldTail < rb.head then
      let buf2 := (List.range oldTail).foldl
        (fun b (i : Nat) => jsSet b (bufferLength + i) (jsGet b i)) buf1
      { rb with
          buffer := buf2, tail := bufferLength + oldTail, mask := size - 1 }
    else
      { rb with buffer := buf1, mask := size - 1 }

/-- `push(value)` (the written slot is `this.#tail` as updated by `grow`). -/
def push (rb : RingBuffer α) (v : α) : RingBuffer α :=
  let nextTail := jsAnd ((rb.tail : Int) + 1) rb.mask
  if nextTail = rb.head then
    let r1 := grow rb ((rb.mask : Int) + 2)
    let r2 := { r1 with buffer := jsSet r1.buffer r1.tail (some v) }
    { r2 with
        tail := jsAnd ((r2.tail : Int) + 1) r2.mask, length := r2.length + 1 }
  else
    { rb with
        buffer := jsSet rb.buffer rb.tail (some v), tail := nextTail,
        length := rb.length + 1 }

/-- `shift()`: returned value and the new state. -/
def shift (rb : RingBuffer α) : Option α × RingBuffer α :=
  if rb.head = rb.tail then (none, rb)
  else
    let value := jsGet rb.buffer rb.head
    let buf := jsSet rb.buffer rb.head none
    (value, { rb with
                buffer := buf, head := jsAnd ((rb.head : Int) + 1) rb.mask,
                length := rb.length - 1 })

/-- The unwrap-into-new-space loop shared by both branches of `allocate`:
`for (let i = 0; i < tail; i++) { buffer[(head+wrapIndex+i) & mask] = buffer[i];
buffer[i] = undefined; }`. -/
def unwrapCopy (buf : Array (Option α)) (head : Nat) (wrapIndex : Int)
    (mask : Nat) (tail : Nat) : Array (Option α) :=
  (List.range tail).foldl
    (fun b (i : Nat) => jsSet (jsSet b (jsAnd ((head : Int) + wrapIndex + i) mask) (jsGet b i)) i none)
    buf

/-- `allocate(index, count)`: success flag and new state. -/
def allocate (rb : RingBuffer α) (index count : Int) : Bool × RingBuffer α :=
  let prevLength := rb.length
  if index < 0 ∨ count ≤ 0 then (false, rb)
  else
    let index : Nat := (min index (prevLength : Int)).toNat
    let count : Nat := count.toNat
    let head := rb.head
    let tail := rb.tail
    let prevMask := rb.mask
    let nextLength := count + prevLength
    let wrapIndex : Int := (rb.buffer.size : Int) - head
    let isWrapped : Bool := tail < head
    let grown :=
      if nextLength ≥ rb.buffer.size then
        let size := (shl1 (32 - clz32 (nextLength : Int))).toNat
        (setLength rb.buffer size, size - 1)
      else (rb.buffer, rb.mask)
    let buf1 := grown.1
    let mask := grown.2
    let isResized : Bool := prevMask != mask
    let leftMoveCount := index
    let rightMoveCount := prevLength - index
    if leftMoveCount < rightMoveCount then
      let buf2 := if isResized && isWrapped then unwrapCopy buf1 head wrapIndex mask tail else buf1
      let writeBase := jsAnd ((head : Int) - count) mask
      let buf3 := (List.range leftMoveCount).foldl
        (fun b (i : Nat) =>
          let r := jsAnd ((head : Int) + i) mask
          let w := jsAnd ((writeBase : Int) + i) mask
          jsSet (jsSet b w (jsGet b r)) r none)
        buf2
      (true, { rb with
               buffer := buf3, head := writeBase, mask := mask, length := nextLength })
    else
      let buf2 := if isResized && isWrapped then unwrapCopy buf1 head wrapIndex mask tail else buf1
      let buf3 := ((List.range rightMoveCount).reverse).foldl
        (fun b (i : Nat) =>
          let r := jsAnd ((head : Int) + index + i) mask
          let w := jsAnd ((head : Int) + index + count + i) mask
          jsSet (jsSet b w (jsGet b r)) r none)
        buf2
      (true, { rb with
               buffer := buf3, tail := jsAnd ((head : Int) + nextLength) mask,
               mask := mask, length := nextLength })

/-- `deallocate(index, count)`: success flag and new state.  In the final
branch the source clears `count` slots starting at the OLD tail (the local
`tail`, captured before `this.#tail` is reassigned); the model reproduces
that behaviour exactly. -/
def deallocate (rb : RingBuffer α) (index count : Int) : Bool × RingBuffer α :=
  let prevLength := rb.length
  if index < 0 ∨ index ≥ (prevLength : Int) ∨ count ≤ 0 then (false, rb)
  else
    let index : Nat := index.toNat
    let actualCount : Nat := (min count ((prevLength : Int) - index)).toNat
    let nextLength := prevLength - actualCount
    let head := rb.head
    let tail := rb.tail
    let mask := rb.mask
    if index = 0 then
      let buf := (List.range actualCount).foldl
        (fun b (i : Nat) => jsSet b (jsAnd ((head : Int) + i) mask) none) rb.buffer
      (true, { rb with
               buffer := buf, head := jsAnd ((head : Int) + actualCount) mask,
               length := nextLength })
    else if index + actualCount = prevLength then
      let buf := (List.range actualCount).foldl
        (fun b (i : Nat) => jsSet b (jsAnd ((tail : Int) - i - 1) mask) none) rb.buffer
      (true, { rb with
               buffer := buf, tail := jsAnd ((tail : Int) - actualCount) mask,
               length := nextLength })
    else
      let leftMoveCount := index
      let rightMoveCount := prevLength - index - actualCount
      if leftMoveCount < rightMoveCount then
        let buf1 := (List.range leftMoveCount).foldl
          (fun b (j : Nat) =>
            let i := leftMoveCount - 1 - j
            jsSet b (jsAnd ((head : Int) + i + actualCount) mask)
              (jsGet b (jsAnd ((head : Int) + i) mask)))
          rb.buffer
        let buf2 := (List.range actualCount).foldl
          (fun b (i : Nat) => jsSet b (jsAnd ((head : Int) + i) mask) none) buf1
        (true, { rb with
                 buffer := buf2, head := jsAnd ((head : Int) + actualCount) mask,
                 length := nextLength })
      else
        let buf1 := (List.range rightMoveCount).foldl
          (fun b (i : Nat) =>
            jsSet b (jsAnd ((head : Int) + index + i) mask)
              (jsGet b (jsAnd ((head : Int) + index + actualCount + i) mask)))
          rb.buffer
        let buf2 := (List.range actualCount).foldl
          (fun b (i : Nat) => jsSet b (jsAnd ((tail : Int) + i) mask) none) buf1
        (true, { rb with
                 buffer := buf2, tail := jsAnd ((tail : Int) - actualCount) mask,
                 length := nextLength })

/-- `resize(capacity)`: success flag and new state. -/
def resize (rb : RingBuffer α) (capacity : Int) : Bool × RingBuffer α :=
  let bufferLength := rb.buffer.size
  if (bufferLength : Int) > capacity ∧ ((bufferLength / 2 : Nat) : Int) < capacity then
    (false, rb)
  else
    let size := roundSize capacity
    let length := rb.length
    if size < length then (false, rb)
    else
      let head := rb.head
      let prevMask := rb.mask
      let prevTail := rb.tail
      let nextMask := size - 1
      let nextTail := jsAnd ((head : Int) + length) nextMask
      let wrapIndex : Int :=
        if size > bufferLength then
          (if prevTail < head then (bufferLength : Int) - head else (length : Int))
        else
          (if nextTail < head then (size : Int) - head else (length : Int))
      let steps := ((length : Int) - wrapIndex).toNat
      let buf1 := (List.range steps).foldl
        (fun b (j : Nat) =>
          let i : Int := (length : Int) - 1 - j
          let r := jsAnd ((head : Int) + i) prevMask
          let w := jsAnd ((head : Int) + i) nextMask
          let b1 := jsSet b w (jsGet b r)
          if r ≠ w then jsSet b1 r none else b1)
        rb.buffer
      (true, { rb with
               buffer := setLength buf1 size, tail := nextTail, mask := nextMask })

/-- `compact(filter)`: success flag and new state.  The source shrinks the
backing array but never updates `this.#mask`; the model keeps that behaviour. -/
def compact (rb : RingBuffer α) (filter : Option α → Nat → Bool) : Bool × RingBuffer α :=
  if rb.tail = rb.head then (false, rb)
  else
    let length := rb.length
    let head := rb.head
    let mask := rb.mask
    let bufferLength := rb.buffer.size
    let pass := (List.range length).foldl
      (fun (p : Array (Option α) × Nat) (read : Nat) =>
        let value := jsGet p.1 (jsAnd ((head : Int) + read) mask)
        if filter value read then
          (if read ≠ p.2 then jsSet p.1 (jsAnd ((head : Int) + p.2) mask) value else p.1,
           p.2 + 1)
        else p)
      (rb.buffer, 0)
    let buf1 := pass.1
    let write := pass.2
    if write = length then (false, rb)
    else
      let shrunk :=
        if 2 * write < bufferLength then
          let size := (shl1 (32 - clz32 ((write : Int) - 1))).toNat
          (setLength buf1 size, size)
        else (buf1, bufferLength)
      let buf3 := (List.range (shrunk.2 - write)).foldl
        (fun b (j : Nat) => jsSet b (write + j) none) shrunk.1
      (true, { rb with
               buffer := buf3, head := 0, tail := write, length := write })

/-- `setOne(index, value, insert)`: success flag and new state (the write
offset uses `this.#head` and `this.#mask` as updated by `allocate`). -/
def setOne (rb : RingBuffer α) (index : Int) (value : α) (insert : Bool) :
    Bool × RingBuffer α :=
  let length := rb.length
  if index < 0 ∨ index > (length : Int) then (false, rb)
  else
    let rb1 :=
      if insert then (allocate rb index 1).2
      else
        let extra := max (index + 1 - (length : Int)) 0
        if extra > 0 then (allocate rb (length : Int) extra).2 else rb
    (true, { rb1 with
             buffer := jsSet rb1.buffer (jsAnd ((rb1.head : Int) + index) rb1.mask) (some value) })

/-- `removeOne(index)`: removed index (or -1) and the new state. -/
def removeOne (rb : RingBuffer α) (index : Int) : Int × RingBuffer α :=
  let length := rb.length
  if index < 0 ∨ index ≥ (length : Int) then (-1, rb)
  else
    let index : Nat := index.toNat
    let head := rb.head
    let mask := rb.mask
    let leftMoveCount := index
    let rightMoveCount := length - index
    if leftMoveCount < rightMoveCount then
      let buf1 := (List.range index).foldl
        (fun b (j : Nat) =>
          let i := index - j
          jsSet b (jsAnd ((head : Int) + i) mask) (jsGet b (jsAnd ((head : Int) + i - 1) mask)))
        rb.buffer
      let buf2 := jsSet buf1 head none
      ((index : Int), { rb with
                        buffer := buf2, head := jsAnd ((head : Int) + 1) mask,
                        length := length - 1 })
    else
      let buf1 := (List.range (length - 1 - index)).foldl
        (fun b (j : Nat) =>
          let i := index + j
          jsSet b (jsAnd ((head : Int) + i) mask) (jsGet b (jsAnd ((head : Int) + i + 1) mask)))
        rb.buffer
      let t := jsAnd ((head : Int) + length - 1) mask
      let buf2 := jsSet buf1 t none
      ((index : Int), { rb with
                        buffer := buf2, tail := t, length := length - 1 })

/-- `slice(start, end)` as the list of produced slots. -/
def slice (rb : RingBuffer α) (start endI : Int) : List (Option α) :=
  let length := rb.length
  let head := rb.head
  let tail := rb.tail
  let mask := rb.mask
  let actualStart : Nat :=
    if start < 0 then (max ((length : Int) + start) 0).toNat else (min start (length : Int)).toNat
  let actualEnd : Nat :=
    if endI < 0 then (max ((length : Int) + endI) 0).toNat else (min endI (length : Int)).toNat
  if head ≤ tail then
    (rb.buffer.extract (jsAnd ((head : Int) + actualStart) mask)
      (jsAnd ((head : Int) + actualEnd) mask)).toList
  else
    (List.range (actualEnd - actualStart)).map
      (fun i => jsGet rb.buffer (jsAnd ((head : Int) + actualStart + i) mask))

/-- `toArray()`: `slice()` with the default arguments. -/
def toArray (rb : RingBuffer α) : List (Option α) := slice rb 0 (rb.length : Int)

/-- `peekAt(index)`. -/
def peekAt (rb : RingBuffer α) (index : Int) : Option α :=
  if index < 0 ∨ index ≥ (rb.length : Int) then none
  else jsGet rb.buffer (jsAnd ((rb.head : Int) + index) rb.mask)

/-- Fold a list of values through `push`. -/
def pushList (rb : RingBuffer α) (vs : List α) : RingBuffer α := vs.foldl push rb

/-- Apply `shift` a number of times, discarding the returned values. -/
def shiftN (rb : RingBuffer α) : Nat → RingBuffer α
  | 0 => rb
  | n + 1 => shiftN (shift rb).2 n

end RingBuffer

/-- JS `c < 0` where `c` is a comparator result (`none` is `NaN`, and
`NaN < 0` is false). -/
def cmpLt : Option Int → Bool
  | some x => x < 0
  | none => false

/-- JS `c <= 0` on a comparator result (false for `NaN`). -/
def cmpLe : Option Int → Bool
  | some x => x ≤ 0
  | none => false

/-- JS `c === 0` on a comparator result (false for `NaN`). -/
def cmpEq : Option Int → Bool
  | some x => x = 0
  | none => false

/-- The sorted view: a ring buffer plus a comparator, exactly the private
fields of `class BinarySearchArray`.  The comparator's first argument is an
`Option` because the library feeds it `peekAt(mid)!`, which can be
`undefined`; a `none` result stands for `NaN`. -/
structure BinarySearchArray (α : Type) where
  buffer : RingBuffer α
  comparator : Option α → α → Option Int

namespace BinarySearchArray

open RingBuffer

/-- `new BinarySearchArray(comparator)`: backed by a fresh default ring
buffer. -/
def mkBSA (cmp : Option α → α → Option Int) : BinarySearchArray α :=
  { buffer := mkRing α 8, comparator := cmp }

/-- The `lowerBound` loop.  The fuel argument is the initial interval width
`right - left`; each iteration shrinks the interval by at least one, so the
fuel never runs out before the loop guard `left < right` fails, and when the
fuel does reach zero the result `left` is exactly the loop-exit result. -/
def lbGo (b : BinarySearchArray α) (v : α) : Nat → Nat → Nat → Nat
  | 0, left, _ => left
  | fuel + 1, left, right =>
    if left < right then
      let mid := (left + right) / 2
      if cmpLt (b.comparator (peekAt b.buffer (mid : Int)) v) then
        lbGo b v fuel (mid + 1) right
      else
        lbGo b v fuel left mid
    else left

/-- `lowerBound(value)`. -/
def lowerBound (b : BinarySearchArray α) (v : α) : Nat :=
  let length := b.buffer.length
  if length = 0 then 0 else lbGo b v length 0 length

/-- The `upperBound` loop, with the same fuel discipline as `lbGo`. -/
def ubGo (b : BinarySearchArray α) (v : α) : Nat → Nat → Nat → Nat
  | 0, left, _ => left
  | fuel + 1, left, right =>
    if left < right then
      let mid := (left + right) / 2
      if cmpLe (b.comparator (peekAt b.buffer (mid : Int)) v) then
        ubGo b v fuel (mid + 1) right
      else
        ubGo b v fuel left mid
    else left

/-- `upperBound(value)`. -/
def upperBound (b : BinarySearchArray α) (v : α) : Nat :=
  let length := b.buffer.length
  if length = 0 then 0 else ubGo b v length 0 length

/-- The `indexOf` loop.  The fuel is the initial interval width
`right + 1 - left`; each iteration shrinks it by at least one, and at fuel
zero the interval is empty so returning `-1` is exactly the loop-exit
result. -/
def idxGo (b : BinarySearchArray α) (v : α) : Nat → Nat → Int → Int
  | 0, _, _ => -1
  | fuel + 1, left, right =>
    if (left : Int) ≤ right then
      let mid := (left + right.toNat) / 2
      let c := b.comparator (peekAt b.buffer (mid : Int)) v
      if cmpEq c then (mid : Int)
      else if cmpLt c then idxGo b v fuel (mid + 1) right
      else idxGo b v fuel left ((mid : Int) - 1)
    else -1

/-- `indexOf(value, index)`.  The library's callers in these claims always
pass the default `index = 0`, so the start index is modelled as a natural
number. -/
def indexOf (b : BinarySearchArray α) (v : α) (index : Nat) : Int :=
  let length := b.buffer.length
  if length = 0 ∨ index ≥ length then -1
  else idxGo b v (length - index) index ((length : Int) - 1)

/-- `insert(value)`: insertion index and new state. -/
def insert (b : BinarySearchArray α) (v : α) : Nat × BinarySearchArray α :=
  let index := lowerBound b v
  (index, { b with buffer := (RingBuffer.setOne b.buffer (index : Int) v true).2 })

/-- Fold a list of values through `insert`. -/
def insertList (b : BinarySearchArray α) (vs : List α) : BinarySearchArray α :=
  vs.foldl (fun b v => (insert b v).2) b

/-- `removeFirst(value)`: `indexOf` then `RingBuffer.removeOne`. -/
def removeFirst (b : BinarySearchArray α) (v : α) : Int × BinarySearchArray α :=
  let index := indexOf b v 0
  let r := RingBuffer.removeOne b.buffer index
  (r.1, { b with buffer := r.2 })

end BinarySearchArray

/-- The numeric ascending comparator `(a, b) => a - b`, receiving a possibly
`undefined` first argument (then the subtraction yields `NaN`, i.e. `none`). -/
def numCmp : Option Int → Int → Option Int
  | some a, b => some (a - b)
  | none, _ => none

open RingBuffer BinarySearchArray

/-- A capacity-8 ring buffer holding `[1, 2]`. -/
def rbC1 : RingBuffer Nat := pushList (mkRing Nat 8) [1, 2]

/-- C1: the allocate/deallocate round trip does NOT restore `toArray()`.
On `[1, 2]`, `allocate(1, 5)` succeeds (no growth, the gap fills most of the
free space), but `deallocate(1, 5)` then clears five slots starting at the
OLD tail offset — `deallocate`'s final branch reassigns `this.#tail` and
then clears from the stale local `tail` — wiping the two live elements.
The round trip returns `[undefined, undefined]` instead of `[1, 2]`. -/
theorem claim1_roundtrip_fails :
    toArray rbC1 = [some 1, some 2] ∧
    (allocate rbC1 1 5).1 = true ∧
    (deallocate (allocate rbC1 1 5).2 1 5).1 = true ∧
    toArray (deallocate (allocate rbC1 1 5).2 1 5).2 = [none, none] := by decide

/-- The sorted view after inserting `5, 2, 8, 1` with the numeric ascending
comparator. -/
def bsaC2 : BinarySearchArray Int := insertList (mkBSA numCmp) [5, 2, 8, 1]

/-- C2 counterexample: on the view `[1, 2, 5, 8]` the claim asserts
`lowerBound(3) == 1` and `upperBound(3) == 1`, but both are 2 (two elements,
1 and 2, order strictly before 3). -/
theorem claim2_counterexample :
    toArray bsaC2.buffer = [some 1, some 2, some 5, some 8] ∧
    lowerBound bsaC2 3 ≠ 1 ∧ upperBound bsaC2 3 ≠ 1 := by decide

/-- C2 amended: inserting `5, 2, 8, 1` yields the logical sequence
`[1, 2, 5, 8]`, and `lowerBound(3) == 2` and `upperBound(3) == 2` (no 3 is
present, both equal the insertion point). -/
theorem claim2_amended :
    toArray bsaC2.buffer = [some 1, some 2, some 5, some 8] ∧
    lowerBound bsaC2 3 = 2 ∧ upperBound bsaC2 3 = 2 := by decide

/-- A capacity-8 ring buffer holding `[1, 2]`. -/
def rbC3 : RingBuffer Nat := pushList (mkRing Nat 8) [1, 2]

/-- C3 counterexample: `allocate` with an index beyond `length` does NOT
fail: the source clamps `index = Math.min(index, prevLength)` and proceeds.
On a buffer of length 2, `allocate(5, 1)` returns `true` and mutates the
buffer (length becomes 3), where the claim requires `false` and no
mutation. -/
theorem claim3_counterexample :
    rbC3.length = 2 ∧
    (allocate rbC3 5 1).1 = true ∧
    (allocate rbC3 5 1).2.length = 3 := by decide

/-- C3 amended: `allocate` returns `false` and leaves the buffer unchanged
exactly for a negative index or a non-positive count (an index beyond
`length` is clamped to `length` and the call succeeds); `deallocate` returns
`false` and leaves the buffer unchanged for a negative index, a non-positive
count, or an index at or beyond `length`. -/
theorem claim3_amended {α : Type} (rb : RingBuffer α) (index count : Int) :
    ((index < 0 ∨ count ≤ 0) → allocate rb index count = (false, rb)) ∧
    ((index < 0 ∨ count ≤ 0 ∨ (rb.length : Int) ≤ index) →
      deallocate rb index count = (false, rb)) := by
  constructor
  · intro h
    unfold allocate
    exact if_pos h
  · intro h
    unfold deallocate
    exact if_pos (by tauto)

/-- An empty default ring buffer used to instantiate `claim3_amended`. -/
def rbC3w : RingBuffer Nat := mkRing Nat 8

theorem claim3_witness :
    allocate rbC3w (-1) 1 = (false, rbC3w) ∧
    deallocate rbC3w 0 0 = (false, rbC3w) :=
  ⟨(claim3_amended rbC3w (-1) 1).1 (Or.inl (by decide)),
   (claim3_amended rbC3w 0 0).2 (Or.inr (Or.inl (by decide)))⟩

/-- A capacity-8 ring buffer holding `[1 .. 7]`. -/
def rbC4 : RingBuffer Nat := pushList (mkRing Nat 8) [1, 2, 3, 4, 5, 6, 7]

/-- C4: the backing-array invariant fails on a reachable state.  After
`compact` keeps only the element `1` (retained count 1 < half of 8), the
source shrinks the backing array to `1 << (32 - Math.clz32(0)) = 1` but
never updates `this.#mask`: the backing length becomes 1, which is neither
the default minimum 8 nor `mask + 1 = 8`. -/
theorem claim4_invariant_fails :
    (compact rbC4 (fun v _ => v == some 1)).1 = true ∧
    (compact rbC4 (fun v _ => v == some 1)).2.buffer.size = 1 ∧
    (compact rbC4 (fun v _ => v == some 1)).2.mask = 7 := by decide

/-- A capacity-16 ring buffer holding `[10, 11, 12, 13]` wrapped across the
end of the backing array (head 14, tail 2), built by 14 pushes, 14 shifts
and 4 pushes. -/
def rbC5 : RingBuffer Nat :=
  pushList (shiftN (pushList (mkRing Nat 16) (List.replicate 14 0)) 14) [10, 11, 12, 13]

set_option maxRecDepth 4000 in
/-- C5: an accepted `resize` does NOT preserve `toArray()`.  `resize(4)` on
the wrapped buffer `[10, 11, 12, 13]` is accepted (rounded size 8 ≥ length 4,
and 8 ≤ half of the current backing length 16) and returns `true`, but the
relocation loop runs from `length - 1` down to the NEGATIVE
`wrapIndex = size - head = 8 - 14`, and its below-zero iterations copy free
slots onto the just-relocated elements: `toArray()` becomes
`[10, 11, undefined, undefined]`. -/
theorem claim5_resize_corrupts :
    toArray rbC5 = [some 10, some 11, some 12, some 13] ∧
    (resize rbC5 4).1 = true ∧
    toArray (resize rbC5 4).2 = [some 10, some 11, none, none] := by decide

/-- A capacity-16 ring buffer holding `[1 .. 7]`. -/
def rbC6 : RingBuffer Nat := pushList (mkRing Nat 16) [1, 2, 3, 4, 5, 6, 7]

/-- C6 counterexample: a requested capacity smaller than `length` is NOT
always refused.  With length 7 in a backing array of 16, `resize(5)` rounds
the request up to `max(8, DEFAULT) = 8 ≥ 7` and succeeds, returning `true`. -/
theorem claim6_counterexample :
    rbC6.length = 7 ∧ (5 : Int) < (rbC6.length : Int) ∧
    (resize rbC6 5).1 = true := by decide

/-- C6 amended: `resize(c)` returns `false` and leaves the buffer completely
unchanged when the ROUNDED size (`max(2^ceil(log2 c), 8)`) is smaller than
`length`, or when the request is a shrink that does not meet the half
threshold (`bufferLength > c` and `bufferLength >> 1 < c`). -/
theorem claim6_amended {α : Type} (rb : RingBuffer α) (c : Int)
    (h : roundSize c < rb.length ∨
      ((rb.buffer.size : Int) > c ∧ ((rb.buffer.size / 2 : Nat) : Int) < c)) :
    resize rb c = (false, rb) := by
  by_cases h1 : (rb.buffer.size : Int) > c ∧ ((rb.buffer.size / 2 : Nat) : Int) < c
  · unfold resize
    rw [if_pos h1]
  · have h2 : roundSize c < rb.length := by tauto
    unfold resize
    rw [if_neg h1, if_pos h2]

/-- A capacity-8 buffer holding `[1, 2, 3]`, used to instantiate
`claim6_amended`. -/
def rbC6w : RingBuffer Nat := pushList (mkRing Nat 8) [1, 2, 3]

theorem claim6_witness : resize rbC6w 5 = (false, rbC6w) :=
  claim6_amended rbC6w 5 (Or.inr (by decide))

/-- The capacity-8 buffer after pushing `1 .. 7`, shifting twice and pushing
`8, 9` (the logical sequence wraps across the end of the backing array). -/
def rbC7 : RingBuffer Nat :=
  pushList (shiftN (pushList (mkRing Nat 8) [1, 2, 3, 4, 5, 6, 7]) 2) [8, 9]

/-- C7: wrap transparency on the concrete scenario: after pushing `1 .. 7`
into a capacity-8 buffer, shifting twice and pushing `8, 9`, `toArray()` is
exactly `[3, 4, 5, 6, 7, 8, 9]`. -/
theorem claim7_wrap_transparency :
    toArray rbC7 = [some 3, some 4, some 5, some 6, some 7, some 8, some 9] := by decide

/-- A capacity-16 ring buffer holding `[1 .. 8]`. -/
def rbC8 : RingBuffer Nat := pushList (mkRing Nat 16) [1, 2, 3, 4, 5, 6, 7, 8]

/-- C8: the `head == tail ⇔ length == 0` invariant fails on a reachable
state.  `resize` only refuses when the rounded size is strictly smaller than
`length`, so `resize(8)` on a buffer of length 8 is accepted and produces a
FULL buffer with `head == tail == 0`: `isEmpty()` reports `true` while
8 elements are stored. -/
theorem claim8_invariant_fails :
    (resize rbC8 8).1 = true ∧
    (resize rbC8 8).2.length = 8 ∧
    (resize rbC8 8).2.head = (resize rbC8 8).2.tail ∧
    isEmpty (resize rbC8 8).2 = true := by decide

/-- The sorted view after inserting fifteen `0`s and then `1` with the
numeric ascending comparator. -/
def bsaC9 : BinarySearchArray Int :=
  insertList (mkBSA numCmp) (List.replicate 15 0 ++ [1])

set_option maxRecDepth 8000 in
/-- C9: binary-search consistency fails on a view populated only via
`insert`.  Each insert of `0` lands at index 0; at the 8th insert `allocate`
grows a wrapped buffer through its left branch, which never updates
`this.#tail` after the unwrap relocation, and the 16th insert's growth then
unwraps using the stale tail and loses 8 elements.  The result has
`length = 16` with element `1` at logical index 15, yet
`lowerBound(1) = upperBound(1) = 7`: index 15 compares equal to 1 under the
comparator but lies outside the window `[7, 7)`, so the window is not the
set of equal elements. -/
theorem claim9_window_fails :
    bsaC9.buffer.length = 16 ∧
    lowerBound bsaC9 1 = 7 ∧
    upperBound bsaC9 1 = 7 ∧
    peekAt bsaC9.buffer 15 = some 1 ∧
    cmpEq (bsaC9.comparator (peekAt bsaC9.buffer 15) 1) = true := by decide

/-- Helper for C10: the `indexOf` loop returns -1 whenever every position of
the view compares unequal to the probe (the loop only ever returns `mid`
after `comparator(...) === 0`, and every probed `mid` is below `length`). -/
theorem idxGo_absent {α : Type} (b : BinarySearchArray α) (v : α)
    (habs : ∀ i : Nat, i < b.buffer.length →
      cmpEq (b.comparator (peekAt b.buffer (i : Int)) v) = false) :
    ∀ (fuel left : Nat) (right : Int), right < (b.buffer.length : Int) →
      idxGo b v fuel left right = -1 := by
  intro fuel
  induction fuel with
  | zero => intro left right _; rfl
  | succ f ih =>
    intro left right h
    rw [idxGo]
    by_cases hlr : (left : Int) ≤ right
    · rw [if_pos hlr]
      have hmid : (left + right.toNat) / 2 < b.buffer.length := by omega
      simp only [habs _ hmid, Bool.false_eq_true, if_false]
      by_cases hc :
          cmpLt (b.comparator (peekAt b.buffer (((left + right.toNat) / 2 : Nat) : Int)) v) = true
      · rw [if_pos hc]
        exact ih _ _ h
      · rw [if_neg hc]
        exact ih _ _ (by omega)
    · rw [if_neg hlr]

/-- Helper for C10: `removeOne(-1)` returns -1 and leaves the buffer
untouched. -/
theorem removeOne_neg {α : Type} (rb : RingBuffer α) :
    removeOne rb (-1) = (-1, rb) := by
  unfold removeOne
  exact if_pos (Or.inl (by norm_num))

/-- C10: for every sorted view and every value that no position of the view
compares equal to, `removeFirst` returns -1 and leaves the view (hence its
length and logical sequence) unchanged: `indexOf` cannot return a match, and
`removeOne(-1)` rejects the negative index without mutating. -/
theorem claim10_removeFirst_absent {α : Type} (b : BinarySearchArray α) (v : α)
    (habs : ∀ i : Nat, i < b.buffer.length →
      cmpEq (b.comparator (peekAt b.buffer (i : Int)) v) = false) :
    removeFirst b v = (-1, b) := by
  have hidx : indexOf b v 0 = -1 := by
    unfold indexOf
    by_cases h0 : b.buffer.length = 0 ∨ 0 ≥ b.buffer.length
    · rw [if_pos h0]
    · rw [if_neg h0]
      exact idxGo_absent b v habs _ _ _ (by omega)
  simp only [removeFirst, hidx, removeOne_neg]

/-- The sorted view `[1, 2]` used to instantiate `claim10_removeFirst_absent`
at the probe value 5, which no stored element compares equal to. -/
def bsaC10w : BinarySearchArray Int := insertList (mkBSA numCmp) [1, 2]

theorem claim10_witness : removeFirst bsaC10w 5 = (-1, bsaC10w) :=
  claim10_removeFirst_absent bsaC10w 5 (by decide)

end FastDS
